import Mathlib

/-!
Shallow embedding of the three demo classes of the `threejs-epita` examples
repository (`gltf-example.ts`, `planet-example.ts`, `texture-example.ts`),
together with proofs about their lifecycle behaviour: resource disposal,
scene clearing, per-frame updates, render submission, asynchronous load
callbacks and resize guarding.

Modelling conventions:
* JavaScript numbers used for rotation angles and angular velocities are
  embedded as `ℚ` (the spec allows floating-point tolerance; all the
  arithmetic the claims touch is additive, so `ℚ` is exact).
* `renderer.render(scene, camera)` submissions (the direct camera render
  path) are counted in `BaseState.directRenders`; `EffectComposer.render()`
  submissions are counted separately per demo.
* `dispose()` calls are recorded in append-only logs, so "disposed exactly
  once" is a statement about the multiplicity of a resource in the log.
* Asynchronous load completions are explicit events: a `load(...)` call
  marks the request in the state, and the success callback is a separate
  state-transition function fired by the environment at some later point.
-/

namespace Web3D

/-- Modelled from the spec: the abstract `Example` base class
(`src/example.ts` is not part of the corpus; only its three subclasses are).
Per the spec's lifecycle contract, the base class owns the renderer surface,
camera, scene root and debug panel; its default `render()` is a direct camera
render, `resize(w, h)` propagates the surface size, and the base `destroy()`
performs no scene mutation of its own — the spec's design notes state that
the texture demo's `destroy()` (which only calls the base) is "a stated
no-op", and both other demos dispose meshes found by traversing the scene
*after* calling the base `destroy()`, which would find nothing had the base
already cleared the scene.  The state tracked here is what the claims
observe: the number of direct camera render submissions and the last
propagated surface size. -/
structure BaseState where
  directRenders : Nat
  surface : Nat × Nat
deriving DecidableEq, Repr

/-- The base class's default `render()`: one direct camera render submission. -/
def baseRender (b : BaseState) : BaseState :=
  { b with directRenders := b.directRenders + 1 }

/-- The base class's `resize(w, h)`: propagates the surface size. -/
def baseResize (w h : Nat) (b : BaseState) : BaseState :=
  { b with surface := (w, h) }

/-- A per-frame operation the host application can issue on an active demo:
an `update()` call or a `render()` call. -/
inductive FrameOp
  | doUpdate
  | doRender
deriving DecidableEq, Repr

namespace Planets

/-- The disposable resources `PlanetsExample.initialize()` creates and
registers in its two bookkeeping sets (`disposableMaterial`,
`disposableGeometry`), one constructor per `new` in the source. -/
inductive Res
  | lineMaterial
  | basicMaterial
  | earthMaterial
  | marsMaterial
  | sunGeometry
  | earthGeom
  | circleGeom
  | orbitEdges
  | marsGeom
  | marsOrbitGeom
  | marsOrbitEdge
deriving DecidableEq, Repr

/-- The direct children `PlanetsExample.initialize()` adds to the scene root
(`scene.add(sun)`, `scene.add(orbit)`, `scene.add(marsOrbit)`; the earth,
mars and the point light are children of the sun mesh, not of the root). -/
inductive SceneNode
  | sunMesh
  | orbitLine
  | marsOrbitLine
deriving DecidableEq, Repr

/-- JavaScript `Set.prototype.add`: insertion-ordered, deduplicating. -/
def setAdd (r : Res) (l : List Res) : List Res :=
  if r ∈ l then l else l ++ [r]

/-- State of a `PlanetsExample` instance.  `sunRot`/`earthRot`/`marsRot` are
`none` while the corresponding field is `null` (before `initialize()`), and
otherwise hold the mesh's accumulated z-rotation; since the meshes are only
ever rotated by `rotateZ`, the accumulated z-euler angle is the sum of the
increments. -/
structure State where
  base : BaseState
  sunRot : Option ℚ
  earthRot : Option ℚ
  marsRot : Option ℚ
  systemVelocity : ℚ
  earthVelocity : ℚ
  marsVelocity : ℚ
  disposableMaterial : List Res
  disposableGeometry : List Res
  sceneChildren : List SceneNode
  disposeLog : List Res
deriving DecidableEq, Repr

/-- `new PlanetsExample(renderer)`: velocities 0.0015 / 0.005 / 0.003, empty
bookkeeping sets, all body references `null`. -/
def construct : State :=
  { base := { directRenders := 0, surface := (0, 0) }
    sunRot := none
    earthRot := none
    marsRot := none
    systemVelocity := 15 / 10000
    earthVelocity := 5 / 1000
    marsVelocity := 3 / 1000
    disposableMaterial := []
    disposableGeometry := []
    sceneChildren := []
    disposeLog := [] }

/-- `PlanetsExample.initialize()`: creates the materials and geometries (each
added to the matching disposable set, in source order), builds the sun/earth/
mars meshes, and adds the sun and the two orbit line segments to the scene
root. -/
def init (s : State) : State :=
  { s with
    disposableMaterial :=
      setAdd Res.marsMaterial (setAdd Res.earthMaterial
        (setAdd Res.basicMaterial (setAdd Res.lineMaterial s.disposableMaterial)))
    disposableGeometry :=
      setAdd Res.marsOrbitEdge (setAdd Res.marsOrbitGeom (setAdd Res.marsGeom
        (setAdd Res.orbitEdges (setAdd Res.circleGeom
          (setAdd Res.earthGeom (setAdd Res.sunGeometry s.disposableGeometry))))))
    sunRot := some 0
    earthRot := some 0
    marsRot := some 0
    sceneChildren :=
      s.sceneChildren ++ [SceneNode.sunMesh, SceneNode.orbitLine, SceneNode.marsOrbitLine] }

/-- `PlanetsExample.update(delta, _)`: when all three body references are
non-null, each body is rotated about z by its current tunable velocity; in
every case the frame ends with a direct `renderer.render(scene, cam)`
submission. -/
def update (s : State) : State :=
  match s.sunRot, s.earthRot, s.marsRot with
  | some a, some b, some c =>
      { s with
        sunRot := some (a + s.systemVelocity)
        earthRot := some (b + s.earthVelocity)
        marsRot := some (c + s.marsVelocity)
        base := baseRender s.base }
  | _, _, _ => { s with base := baseRender s.base }

/-- `PlanetsExample` does not override `render()`: the inherited base render
is a direct camera render submission. -/
def render (s : State) : State :=
  { s with base := baseRender s.base }

/-- `PlanetsExample.destroy()`: `super.destroy()` (no scene mutation), then
`dispose()` on every element of both disposable sets, clears the sets, and
clears the scene root.  The body references are *not* reset to `null`. -/
def destroy (s : State) : State :=
  { s with
    disposeLog := s.disposeLog ++ s.disposableMaterial ++ s.disposableGeometry
    disposableMaterial := []
    disposableGeometry := []
    sceneChildren := [] }

/-- Runs a sequence of host frame operations on a `PlanetsExample`, left to
right. -/
def runOps : List FrameOp → State → State
  | [], s => s
  | FrameOp.doUpdate :: rest, s => runOps rest (update s)
  | FrameOp.doRender :: rest, s => runOps rest (render s)

end Planets

namespace Gltf

/-- A mesh inside the asynchronously loaded glTF scene: one geometry and one
or more materials (`mesh.material` may be a single material or an array; the
`destroy()` traversal normalises both to a list). -/
structure GMesh where
  geomId : Nat
  matIds : List Nat
deriving DecidableEq, Repr

/-- A direct child of the `GLTFExample` scene root: one of the two lights
added by `initialize()`, or the root of the loaded glTF model (whose meshes
are what the `destroy()` traversal finds). -/
inductive GNode
  | light (id : Nat)
  | modelRoot (meshes : List GMesh)
deriving DecidableEq, Repr

/-- State of a `GLTFExample` instance.  `mixer` mirrors
`_mixer : AnimationMixer | undefined`: `none` until the glTF load callback
installs it, and `some k` when installed, where `k` counts the
`mixer.update(delta)` invocations delivered to it.  `bokehDepthSize` mirrors
`_bokeh : BokehPass | undefined` (tracking its depth render target size);
`composerSize` is the `EffectComposer`'s size.  Window dimensions used for
the initial pass sizes are abstracted to `(0, 0)`: no claim depends on
them. -/
structure State where
  base : BaseState
  mixer : Option Nat
  composerRenders : Nat
  composerSize : Nat × Nat
  bokehDepthSize : Option (Nat × Nat)
  sceneChildren : List GNode
  loadRequested : Bool
  disposeGeomLog : List Nat
  disposeMatLog : List Nat
deriving DecidableEq, Repr

/-- `new GLTFExample(renderer)`: builds the composer, the bokeh pass and the
bloom pass and registers lights and GUI folders; no scene children yet, no
mixer, no load in flight. -/
def construct : State :=
  { base := { directRenders := 0, surface := (0, 0) }
    mixer := none
    composerRenders := 0
    composerSize := (0, 0)
    bokehDepthSize := some (0, 0)
    sceneChildren := []
    loadRequested := false
    disposeGeomLog := []
    disposeMatLog := [] }

/-- `GLTFExample.initialize()`: starts the asynchronous glTF load
(non-blocking; the callback fires at some later frame boundary, if ever) and
adds the two lights built by the constructor to the scene root. -/
def init (s : State) : State :=
  { s with
    loadRequested := true
    sceneChildren := s.sceneChildren ++ [GNode.light 0, GNode.light 1] }

/-- The glTF load success callback (the closure passed to `loader.load` in
`initialize()`): positions and scales the loaded scene, installs a fresh
`AnimationMixer` on it, starts the first clip, and adds the loaded scene to
the scene root.  The callback performs no check of the demo's lifecycle
state. -/
def onLoad (meshes : List GMesh) (s : State) : State :=
  { s with
    mixer := some 0
    sceneChildren := s.sceneChildren ++ [GNode.modelRoot meshes] }

/-- `GLTFExample.update()`: advances the mixer by the clock delta when the
mixer exists (optional chaining `this._mixer?.update(delta)`), then submits a
direct `renderer.render(scene, cam)` call. -/
def update (s : State) : State :=
  match s.mixer with
  | none => { s with base := baseRender s.base }
  | some k => { s with mixer := some (k + 1), base := baseRender s.base }

/-- `GLTFExample.render()`: overrides the base render ("To not call parent
function render()."), submitting one `EffectComposer.render()` instead. -/
def render (s : State) : State :=
  { s with composerRenders := s.composerRenders + 1 }

/-- The geometry ids disposed when the `destroy()` traversal visits a scene
child. -/
def nodeGeoms : GNode → List Nat
  | GNode.light _ => []
  | GNode.modelRoot ms => ms.map GMesh.geomId

/-- The material ids disposed when the `destroy()` traversal visits a scene
child. -/
def nodeMats : GNode → List Nat
  | GNode.light _ => []
  | GNode.modelRoot ms => (ms.map GMesh.matIds).flatten

/-- `GLTFExample.destroy()`: `super.destroy()` (no scene mutation), then a
traversal disposing every mesh's geometry and material(s), then
`scene.clear()`.  Nothing resets `_mixer` or marks the demo destroyed. -/
def destroy (s : State) : State :=
  { s with
    disposeGeomLog := s.disposeGeomLog ++ (s.sceneChildren.map nodeGeoms).flatten
    disposeMatLog := s.disposeMatLog ++ (s.sceneChildren.map nodeMats).flatten
    sceneChildren := [] }

/-- `GLTFExample.resize(w, h)`: `super.resize(w, h)`, then
`this._bokeh?.renderTargetDepth.setSize(w, h)` (optional chaining: skipped
when `_bokeh` is `undefined`), then `composer.setSize(w, h)`.  The result is
in `Except`: an unguarded member access on an `undefined` receiver would be
a thrown `TypeError`, modelled as `Except.error`; every access in this
method is guarded, so no error path remains. -/
def resize (w h : Nat) (s : State) : Except String State :=
  let s1 := { s with base := baseResize w h s.base }
  let s2 :=
    match s1.bokehDepthSize with
    | none => s1
    | some _ => { s1 with bokehDepthSize := some (w, h) }
  Except.ok { s2 with composerSize := (w, h) }

/-- Runs a sequence of host frame operations on a `GLTFExample`, left to
right. -/
def runOps : List FrameOp → State → State
  | [], s => s
  | FrameOp.doUpdate :: rest, s => runOps rest (update s)
  | FrameOp.doRender :: rest, s => runOps rest (render s)

/-- A placeholder for the meshes of the loaded `LittlestTokyo.glb` asset:
two meshes with distinct geometries and materials (the exact content of the
binary asset is opaque to the repository's code). -/
def tokyoMeshes : List GMesh :=
  [{ geomId := 0, matIds := [0] }, { geomId := 1, matIds := [1] }]

end Gltf

namespace Texture

/-- The disposable resources `TextureExample.initialize()` creates: the four
loaded texture maps, the composed multi-map standard material, the shadow
plane's geometry and its shadow material. -/
inductive TRes
  | albedoTex
  | normalTex
  | metallicTex
  | roughnessTex
  | standardMaterial
  | planeGeometry
  | shadowMaterial
deriving DecidableEq, Repr

/-- Direct children of the `TextureExample` scene root: the directional
light and the shadow plane (added synchronously by `initialize()`) and the
loaded OBJ model (added by its load callback). -/
inductive TNode
  | dirLight
  | planeMesh
  | objModel
deriving DecidableEq, Repr

/-- State of a `TextureExample` instance.  The four `...Loaded` flags mirror
completion of the four `TextureLoader.load` requests tracked by the
`LoadingManager`; `managerFired` records that `loadManager.onLoad` has run
(which is when the OBJ load is requested); `materialApplied` records that
the composed `MeshStandardMaterial` has been assigned to the loaded model's
meshes (which happens only inside the OBJ success callback). -/
structure State where
  base : BaseState
  texturesRequested : Bool
  albedoLoaded : Bool
  normalLoaded : Bool
  metallicLoaded : Bool
  roughnessLoaded : Bool
  managerFired : Bool
  objRequested : Bool
  objLoaded : Bool
  materialApplied : Bool
  hdrRequested : Bool
  envSet : Bool
  sceneChildren : List TNode
  created : List TRes
  disposeLog : List TRes
deriving DecidableEq, Repr

/-- `new TextureExample(renderer)`: enables shadow mapping and creates orbit
controls; no loads, no scene children. -/
def construct : State :=
  { base := { directRenders := 0, surface := (0, 0) }
    texturesRequested := false
    albedoLoaded := false
    normalLoaded := false
    metallicLoaded := false
    roughnessLoaded := false
    managerFired := false
    objRequested := false
    objLoaded := false
    materialApplied := false
    hdrRequested := false
    envSet := false
    sceneChildren := []
    created := []
    disposeLog := [] }

/-- `TextureExample.initialize()`: requests the four texture loads through
the `LoadingManager`, composes the multi-map material, registers the
manager's `onLoad` handler, adds the directional light and the shadow plane
to the scene root, and requests the HDR environment cubemap load. -/
def init (s : State) : State :=
  { s with
    texturesRequested := true
    hdrRequested := true
    created := s.created ++
      [TRes.albedoTex, TRes.normalTex, TRes.metallicTex, TRes.roughnessTex,
       TRes.standardMaterial, TRes.planeGeometry, TRes.shadowMaterial]
    sceneChildren := s.sceneChildren ++ [TNode.dirLight, TNode.planeMesh] }

/-- Asynchronous completion events the environment can deliver to a
`TextureExample`: one per texture load, the `LoadingManager`'s aggregated
`onLoad`, the OBJ load completion, and the HDR cubemap completion. -/
inductive Ev
  | albedoDone
  | normalDone
  | metallicDone
  | roughnessDone
  | managerLoad
  | objDone
  | hdrDone
deriving DecidableEq, Repr

/-- All four texture loads have completed. -/
def allTexLoaded (s : State) : Bool :=
  s.albedoLoaded && s.normalLoaded && s.metallicLoaded && s.roughnessLoaded

/-- Whether an event can fire in a state: a load completes only if it was
requested and has not completed already, and the `LoadingManager` fires its
`onLoad` only once all four tracked texture loads have completed. -/
def enabled : Ev → State → Bool
  | Ev.albedoDone, s => s.texturesRequested && !s.albedoLoaded
  | Ev.normalDone, s => s.texturesRequested && !s.normalLoaded
  | Ev.metallicDone, s => s.texturesRequested && !s.metallicLoaded
  | Ev.roughnessDone, s => s.texturesRequested && !s.roughnessLoaded
  | Ev.managerLoad, s => allTexLoaded s && !s.managerFired
  | Ev.objDone, s => s.objRequested && !s.objLoaded
  | Ev.hdrDone, s => s.hdrRequested && !s.envSet

/-- The effect of each completion event.  `managerLoad` runs the registered
`loadManager.onLoad` closure, which requests the OBJ model load; `objDone`
runs the OBJ success callback, which assigns the composed material to every
mesh of the loaded model and adds the model to the scene root; `hdrDone`
convolves the cubemap and installs it as the scene environment. -/
def applyEv : Ev → State → State
  | Ev.albedoDone, s => { s with albedoLoaded := true }
  | Ev.normalDone, s => { s with normalLoaded := true }
  | Ev.metallicDone, s => { s with metallicLoaded := true }
  | Ev.roughnessDone, s => { s with roughnessLoaded := true }
  | Ev.managerLoad, s => { s with managerFired := true, objRequested := true }
  | Ev.objDone, s =>
      { s with
        objLoaded := true
        materialApplied := true
        sceneChildren := s.sceneChildren ++ [TNode.objModel] }
  | Ev.hdrDone, s => { s with envSet := true }

/-- One asynchronous completion step. -/
def Step (s t : State) : Prop :=
  ∃ e : Ev, enabled e s = true ∧ t = applyEv e s

/-- Reachability by any number of asynchronous completion steps. -/
def Reachable : State → State → Prop :=
  Relation.ReflTransGen Step

/-- `TextureExample.update()`: the body is empty (`// @todo`). -/
def update (s : State) : State := s

/-- `TextureExample` does not override `render()`: the inherited base render
is a direct camera render submission. -/
def render (s : State) : State :=
  { s with base := baseRender s.base }

/-- `TextureExample.destroy()`: calls `super.destroy()` (no scene mutation)
and nothing else — the rest of the body is an empty `// @todo` stub.  No
resource is disposed and the scene root is not cleared. -/
def destroy (s : State) : State := s

/-- The barrier invariant maintained by the texture demo's load events: the
`LoadingManager` callback and the OBJ request can only have happened once
all four texture loads completed, and the composed material can only have
been applied once, additionally, the model load completed. -/
def TexInv (s : State) : Prop :=
  (s.managerFired = true → allTexLoaded s = true) ∧
  (s.objRequested = true → allTexLoaded s = true) ∧
  (s.materialApplied = true → allTexLoaded s = true ∧ s.objLoaded = true)

/-- One complete execution trace of the texture demo's loads: the four
texture completions, the manager's aggregated `onLoad`, then the OBJ load
completion. -/
def barrierTrace : State :=
  applyEv Ev.objDone (applyEv Ev.managerLoad (applyEv Ev.roughnessDone
    (applyEv Ev.metallicDone (applyEv Ev.normalDone
      (applyEv Ev.albedoDone (init construct))))))

end Texture

end Web3D

namespace Web3D

namespace Planets

/-- When all three bodies exist, `update` advances each body's rotation by
its current velocity and leaves the velocities themselves untouched. -/
theorem planets_update_step (s : State) (a b c : ℚ)
    (ha : s.sunRot = some a) (hb : s.earthRot = some b) (hc : s.marsRot = some c) :
    (update s).sunRot = some (a + s.systemVelocity) ∧
    (update s).earthRot = some (b + s.earthVelocity) ∧
    (update s).marsRot = some (c + s.marsVelocity) ∧
    (update s).systemVelocity = s.systemVelocity ∧
    (update s).earthVelocity = s.earthVelocity ∧
    (update s).marsVelocity = s.marsVelocity := by
  simp [update, ha, hb, hc]

/-- Claim C4: after `initialize()`, running any interleaving of `update()`
and `render()` calls that contains N `update()` calls, while each body's
tunable velocity holds its value throughout, leaves each body's accumulated
z-rotation advanced by exactly N times its velocity; the interleaved
`render()` calls do not change the totals. -/
theorem planets_rotation_accumulates (ops : List FrameOp) (s : State) (a b c : ℚ)
    (ha : s.sunRot = some a) (hb : s.earthRot = some b) (hc : s.marsRot = some c) :
    (runOps ops s).sunRot
        = some (a + (ops.count FrameOp.doUpdate : ℚ) * s.systemVelocity) ∧
    (runOps ops s).earthRot
        = some (b + (ops.count FrameOp.doUpdate : ℚ) * s.earthVelocity) ∧
    (runOps ops s).marsRot
        = some (c + (ops.count FrameOp.doUpdate : ℚ) * s.marsVelocity) := by
  induction ops generalizing s a b c with
  | nil => simp [runOps, ha, hb, hc]
  | cons op rest ih =>
      cases op with
      | doUpdate =>
          obtain ⟨h1, h2, h3, h4, h5, h6⟩ := planets_update_step s a b c ha hb hc
          obtain ⟨g1, g2, g3⟩ := ih (update s) _ _ _ h1 h2 h3
          rw [h4] at g1
          rw [h5] at g2
          rw [h6] at g3
          simp only [runOps, List.count_cons_self, g1, g2, g3]
          refine ⟨?_, ?_, ?_⟩ <;> · congr 1; push_cast; ring
      | doRender =>
          obtain ⟨g1, g2, g3⟩ := ih (render s) _ _ _ ha hb hc
          simp only [runOps, g1, g2, g3]
          rw [List.count_cons_of_ne (by simp)]
          exact ⟨rfl, rfl, rfl⟩

/-- Witness for claim C4: a concrete run with two `update()` calls and one
interleaved `render()` call, starting from the freshly initialised demo. -/
theorem planets_rotation_accumulates_witness :
    (runOps [FrameOp.doUpdate, FrameOp.doRender, FrameOp.doUpdate]
        (init construct)).sunRot
      = some (0 + (([FrameOp.doUpdate, FrameOp.doRender,
            FrameOp.doUpdate].count FrameOp.doUpdate : ℕ) : ℚ)
          * (init construct).systemVelocity) ∧
    (runOps [FrameOp.doUpdate, FrameOp.doRender, FrameOp.doUpdate]
        (init construct)).earthRot
      = some (0 + (([FrameOp.doUpdate, FrameOp.doRender,
            FrameOp.doUpdate].count FrameOp.doUpdate : ℕ) : ℚ)
          * (init construct).earthVelocity) ∧
    (runOps [FrameOp.doUpdate, FrameOp.doRender, FrameOp.doUpdate]
        (init construct)).marsRot
      = some (0 + (([FrameOp.doUpdate, FrameOp.doRender,
            FrameOp.doUpdate].count FrameOp.doUpdate : ℕ) : ℚ)
          * (init construct).marsVelocity) :=
  planets_rotation_accumulates _ _ 0 0 0 rfl rfl rfl

/-- Counterexample to claim C9: `update()` called after `destroy()` is not a
no-op — `destroy()` does not reset the body references, so the rotation
increment is still applied to the (disposed, detached) sun mesh. -/
theorem planets_update_after_destroy_rotates :
    (update (destroy (init construct))).sunRot
      ≠ (destroy (init construct)).sunRot := by
  norm_num [update, destroy, init, construct]

/-- Claim C9 as amended: before `initialize()` the body references are null,
so `update()` applies no rotation — but it still submits one direct render,
so it is not a complete no-op; and after `destroy()` the body references are
still set, so `update()` still applies each velocity as a rotation
increment. -/
theorem planets_lifecycle_misuse_amended (s : State) (h : s.sunRot = none) :
    ((update s).sunRot = s.sunRot ∧
     (update s).earthRot = s.earthRot ∧
     (update s).marsRot = s.marsRot ∧
     (update s).base.directRenders = s.base.directRenders + 1) ∧
    ((update (destroy (init construct))).sunRot
        = some construct.systemVelocity ∧
     (update (destroy (init construct))).earthRot
        = some construct.earthVelocity ∧
     (update (destroy (init construct))).marsRot
        = some construct.marsVelocity) := by
  constructor
  · simp [update, h, baseRender]
  · norm_num [update, destroy, init, construct]

/-- Witness for the amended claim C9: the freshly constructed (never
initialised) demo. -/
theorem planets_lifecycle_misuse_amended_witness :
    (update construct).sunRot = construct.sunRot :=
  (planets_lifecycle_misuse_amended construct rfl).1.1

/-- `PlanetsExample` disposal bookkeeping is exact: after `initialize()`
then `destroy()`, the dispose log holds each of the 11 created resources
exactly once (no duplicates) and the scene root has no children. -/
theorem planets_dispose_once_each :
    (destroy (init construct)).disposeLog.Nodup ∧
    (destroy (init construct)).disposeLog.length = 11 ∧
    (destroy (init construct)).sceneChildren = [] := by decide

end Planets

namespace Gltf

/-- Counterexample to claim C3: one frame tick (one `update()` then one
`render()`) on the freshly initialised `GLTFExample` does submit the scene
through the direct camera render path — `update()` ends with
`renderer.render(scene, cam)`. -/
theorem gltf_tick_submits_direct_render :
    (render (update (init construct))).base.directRenders ≠ 0 := by decide

/-- Claim C3 as amended: the overridden `render()` itself never submits the
direct camera render (it runs only the composer's post-processing chain and
does not call the base render), but `update()` submits one direct camera
render per call, so a frame tick performs one direct submission in addition
to the post-processing chain. -/
theorem gltf_render_replaces_base_render (s : State) :
    (render s).base.directRenders = s.base.directRenders ∧
    (render s).composerRenders = s.composerRenders + 1 ∧
    (update s).base.directRenders = s.base.directRenders + 1 := by
  refine ⟨rfl, rfl, ?_⟩
  cases h : s.mixer <;> simp [update, h, baseRender]

/-- Claim C6: while the asynchronous model load has not completed (the mixer
was never installed), any sequence of `update()` and `render()` calls leaves
the mixer uninstalled — so the animation player is never invoked — and
leaves the scene content unchanged. -/
theorem gltf_pending_load_graceful (ops : List FrameOp) (s : State)
    (h : s.mixer = none) :
    (runOps ops s).mixer = none ∧
    (runOps ops s).sceneChildren = s.sceneChildren := by
  induction ops generalizing s with
  | nil => exact ⟨h, rfl⟩
  | cons op rest ih =>
      cases op with
      | doUpdate =>
          have hu : update s = { s with base := baseRender s.base } := by
            unfold update; rw [h]
          simp only [runOps, hu]
          exact ih _ h
      | doRender =>
          simp only [runOps]
          exact ih (render s) h

/-- Witness for claim C6: two frames ticked on the freshly initialised demo
whose load callback has not fired. -/
theorem gltf_pending_load_graceful_witness :
    (runOps [FrameOp.doUpdate, FrameOp.doRender, FrameOp.doUpdate,
        FrameOp.doRender] (init construct)).mixer = none ∧
    (runOps [FrameOp.doUpdate, FrameOp.doRender, FrameOp.doUpdate,
        FrameOp.doRender] (init construct)).sceneChildren
      = (init construct).sceneChildren :=
  gltf_pending_load_graceful _ _ rfl

/-- Claim C7 evaluated at the failing input: after `initialize()` then
`destroy()` (which clears the scene root), a late-arriving glTF load
callback is not a no-op — it adds the loaded model to the destroyed demo's
scene graph and installs an animation mixer, because the callback performs
no destroyed-state check. -/
theorem gltf_late_callback_mutates_destroyed :
    (destroy (init construct)).sceneChildren = [] ∧
    (onLoad tokyoMeshes (destroy (init construct))).sceneChildren ≠ [] ∧
    (onLoad tokyoMeshes (destroy (init construct))).mixer ≠ none := by decide

/-- Claim C8: `resize(800, 600)` called before `initialize()` does not
raise: the only post-processing target accessed through a possibly-undefined
reference (`_bokeh`) is reached by optional chaining, which skips the access
when the target does not exist; the second conjunct checks the guard on a
state whose bokeh target is absent. -/
theorem gltf_resize_before_init_safe :
    (resize 800 600 construct).isOk = true ∧
    (resize 800 600 { construct with bokehDepthSize := none }).isOk = true := by
  decide

end Gltf

namespace Texture

/-- Every asynchronous completion step preserves the barrier invariant. -/
theorem texture_step_preserves_inv (s t : State) (hst : Step s t)
    (hs : TexInv s) : TexInv t := by
  obtain ⟨e, he, rfl⟩ := hst
  cases e <;>
    simp_all [TexInv, applyEv, allTexLoaded, enabled, Bool.and_eq_true]

/-- The barrier invariant holds in every state reachable from the freshly
initialised texture demo by asynchronous completions. -/
theorem texture_reachable_inv (s : State)
    (h : Reachable (init construct) s) : TexInv s := by
  unfold Reachable at h
  induction h with
  | refl =>
      refine ⟨fun hx => ?_, fun hx => ?_, fun hx => ?_⟩ <;>
        simp [init, construct] at hx
  | tail _ hbc ih => exact texture_step_preserves_inv _ _ hbc ih

/-- Claim C5: in every state the texture demo can reach after
`initialize()`, the composed multi-map material is applied to the loaded
model's meshes only if all four texture loads and the model load have
completed; no reachable state has the material applied while any of those
five loads is pending. -/
theorem texture_material_barrier (s : State)
    (h : Reachable (init construct) s) (hm : s.materialApplied = true) :
    s.albedoLoaded = true ∧ s.normalLoaded = true ∧
    s.metallicLoaded = true ∧ s.roughnessLoaded = true ∧
    s.objLoaded = true := by
  obtain ⟨-, -, h3⟩ := texture_reachable_inv s h
  obtain ⟨hall, hobj⟩ := h3 hm
  simp only [allTexLoaded, Bool.and_eq_true] at hall
  exact ⟨hall.1.1.1, hall.1.1.2, hall.1.2, hall.2, hobj⟩

/-- Witness for claim C5: the complete concrete trace in which the four
texture loads finish, the manager's barrier fires, and the model load
completes and applies the material. -/
theorem texture_material_barrier_witness :
    barrierTrace.albedoLoaded = true ∧ barrierTrace.normalLoaded = true ∧
    barrierTrace.metallicLoaded = true ∧ barrierTrace.roughnessLoaded = true ∧
    barrierTrace.objLoaded = true := by
  have r1 : Step (init construct) (applyEv Ev.albedoDone (init construct)) :=
    ⟨Ev.albedoDone, by decide, rfl⟩
  have r2 : Step (applyEv Ev.albedoDone (init construct))
      (applyEv Ev.normalDone (applyEv Ev.albedoDone (init construct))) :=
    ⟨Ev.normalDone, by decide, rfl⟩
  have r3 : Step (applyEv Ev.normalDone (applyEv Ev.albedoDone (init construct)))
      (applyEv Ev.metallicDone (applyEv Ev.normalDone
        (applyEv Ev.albedoDone (init construct)))) :=
    ⟨Ev.metallicDone, by decide, rfl⟩
  have r4 : Step (applyEv Ev.metallicDone (applyEv Ev.normalDone
        (applyEv Ev.albedoDone (init construct))))
      (applyEv Ev.roughnessDone (applyEv Ev.metallicDone (applyEv Ev.normalDone
        (applyEv Ev.albedoDone (init construct))))) :=
    ⟨Ev.roughnessDone, by decide, rfl⟩
  have r5 : Step (applyEv Ev.roughnessDone (applyEv Ev.metallicDone
        (applyEv Ev.normalDone (applyEv Ev.albedoDone (init construct)))))
      (applyEv Ev.managerLoad (applyEv Ev.roughnessDone (applyEv Ev.metallicDone
        (applyEv Ev.normalDone (applyEv Ev.albedoDone (init construct)))))) :=
    ⟨Ev.managerLoad, by decide, rfl⟩
  have r6 : Step (applyEv Ev.managerLoad (applyEv Ev.roughnessDone
        (applyEv Ev.metallicDone (applyEv Ev.normalDone
          (applyEv Ev.albedoDone (init construct))))))
      barrierTrace :=
    ⟨Ev.objDone, by decide, rfl⟩
  have hr : Reachable (init construct) barrierTrace :=
    Relation.ReflTransGen.tail (Relation.ReflTransGen.tail
      (Relation.ReflTransGen.tail (Relation.ReflTransGen.tail
        (Relation.ReflTransGen.tail (Relation.ReflTransGen.tail
          Relation.ReflTransGen.refl r1) r2) r3) r4) r5) r6
  exact texture_material_barrier barrierTrace hr rfl

/-- Claim C10: `TextureExample.update()` is a pure no-op in every state: it
mutates no demo or scene state, reads no tunables, and submits nothing to
the renderer. -/
theorem texture_update_is_noop (s : State) : update s = s := rfl

/-- Claim C1 evaluated at the failing input: after `initialize()` then
`destroy()` on the texture demo, the dispose log is empty although seven
disposable resources were created — `destroy()` is an empty `// @todo` stub,
so no created resource is ever disposed. -/
theorem texture_destroy_disposes_nothing :
    (destroy (init construct)).disposeLog = [] ∧
    (destroy (init construct)).created ≠ [] := by decide

/-- Claim C2 evaluated at the failing input: after `initialize()` then
`destroy()` on the texture demo, the scene root still holds the directional
light and the shadow plane — the scene graph is never cleared. -/
theorem texture_destroy_scene_not_cleared :
    (destroy (init construct)).sceneChildren
      = [TNode.dirLight, TNode.planeMesh] := by decide

end Texture

end Web3D
